import Mathlib

/-!
Verification of the schema catalog of `src/app/models.py`: persistent
entities (users, topic suggestions, projects, scripts, audio files,
subscriptions, usage logs, tasks) and their create/update transfer shapes,
shallowly embedded as Lean structures, together with the field-level
validation the schema declares (length bounds, regex, defaults) and the
patch/persistence/serialization operations the specification describes.
-/

namespace App

/-! ## Enumerations (models.py lines 8-42) -/

inductive UserTier where
  | free
  | premium
  | professional
deriving DecidableEq, Repr

inductive ProjectStatus where
  | draft
  | script_ready
  | audio_generated
  | enhanced
  | published
deriving DecidableEq, Repr

inductive ScriptStatus where
  | draft
  | ai_generated
  | user_edited
  | final
deriving DecidableEq, Repr

inductive AudioStatus where
  | pending
  | processing
  | completed
  | failed
deriving DecidableEq, Repr

inductive VoiceType where
  | male_professional
  | female_professional
  | male_casual
  | female_casual
  | narrator
  | custom
deriving DecidableEq, Repr

/-! ## Supporting value types

`datetime` values are modelled as abstract instants (`Nat` ticks); the
schema only stores and defaults them, never computes with them.
`Decimal` is Python's exact decimal: a signed integral mantissa together
with a decimal scale, denoting `mant / 10 ^ scale`.  Untyped JSON-bag
fields (`preferences`, `voice_settings`, ...) are a mapping from string
keys to a small closed value variant, per the spec's design note. -/

abbrev DateTime := Nat

structure Decimal where
  mant : Int
  scale : Nat
deriving DecidableEq, Repr

/-- The exact rational value a `Decimal` denotes. -/
def Decimal.val (d : Decimal) : ℚ :=
  (d.mant : ℚ) / (10 : ℚ) ^ d.scale

inductive JVal where
  | jstr (s : String)
  | jnum (n : Int)
  | jbool (b : Bool)
deriving DecidableEq, Repr

abbrev JsonDict := List (String × JVal)

/-! ## Field-level validation

The only error class of the catalog is validation failure, reported
per field as (field name, violated rule). -/

abbrev FieldError := String × String

/-- Constraint `Field(max_length=n)`: the string may have at most `n`
characters. -/
def checkMaxLen (field : String) (v : String) (n : Nat) : List FieldError :=
  if v.length ≤ n then [] else [(field, "max_length")]

/-- Constraint `Field(min_length=n)`: the string must have at least `n`
characters. -/
def checkMinLen (field : String) (v : String) (n : Nat) : List FieldError :=
  if n ≤ v.length then [] else [(field, "min_length")]

/-- `checkMaxLen` lifted to an optional field: absent values pass. -/
def checkOptMaxLen (field : String) (v : Option String) (n : Nat) : List FieldError :=
  match v with
  | none => []
  | some s => checkMaxLen field s n

/-! ## The email regular expression

models.py line 50 / 254 declares
`regex=r"^[a-zA-Z0-9_.+-]+@[a-zA-Z0-9-]+\.[a-zA-Z0-9-.]+$"` on
`User.email` and `UserCreate.email`.  Because the local class excludes
`@` and the first domain class excludes both `@` and `.`, a string
matches exactly when it splits at its first `@` into a nonempty local
part over `[a-zA-Z0-9_.+-]`, and the remainder splits at its first `.`
into a nonempty label over `[a-zA-Z0-9-]` and a nonempty tail over
`[a-zA-Z0-9-.]`. -/

def isLocalChar (c : Char) : Bool :=
  c.isAlpha || c.isDigit || c = '_' || c = '.' || c = '+' || c = '-'

def isDomainChar (c : Char) : Bool :=
  c.isAlpha || c.isDigit || c = '-'

def isDomainDotChar (c : Char) : Bool :=
  c.isAlpha || c.isDigit || c = '-' || c = '.'

/-- Split a character list at the first occurrence of `c`; `none` when
`c` does not occur. -/
def breakAt (c : Char) : List Char → Option (List Char × List Char)
  | [] => none
  | x :: xs =>
    if x = c then some ([], xs)
    else
      match breakAt c xs with
      | none => none
      | some (l, r) => some (x :: l, r)

/-- Whether a string matches the declared email regex
`^[a-zA-Z0-9_.+-]+@[a-zA-Z0-9-]+\.[a-zA-Z0-9-.]+$`. -/
def emailMatch (s : String) : Bool :=
  match breakAt '@' s.toList with
  | none => false
  | some (locPart, rest) =>
    (!locPart.isEmpty) && locPart.all isLocalChar &&
      match breakAt '.' rest with
      | none => false
      | some (d1, d2) =>
        (!d1.isEmpty) && d1.all isDomainChar &&
          (!d2.isEmpty) && d2.all isDomainDotChar

/-- Constraint `Field(regex=...)` on an email field. -/
def checkEmailRegex (field : String) (v : String) : List FieldError :=
  if emailMatch v then [] else [(field, "regex")]

/-! ## Group 1: the Task list

Modelled from the spec: the task-list module (`Task`, `TaskCreate`,
`TaskUpdate`) is described in the spec (§3 Group 1) but its source file
is not under `src/`; only `src/app/models.py` (Group 2) is.  Per the
spec: identity (auto id), `title` non-empty and at most 200 characters,
`completed` boolean defaulting to false, `created_at` defaulting to the
current time; `TaskUpdate` is an all-optional partial patch. -/

structure Task where
  id : Option Int
  title : String
  completed : Bool
  created_at : DateTime
deriving DecidableEq, Repr

/-- Modelled from the spec: `TaskCreate` carries the requested title and
optionally the completed flag; an absent `completed` means the declared
default applies. -/
structure TaskCreate where
  title : String
  completed : Option Bool
deriving DecidableEq, Repr

/-- Modelled from the spec: `TaskUpdate` fields are all optional
(partial patch semantics). -/
structure TaskUpdate where
  title : Option String
  completed : Option Bool
deriving DecidableEq, Repr

/-- Modelled from the spec: validate-on-construct for `Task` — `title`
non-empty and at most 200 characters. -/
def validateTask (t : Task) : List FieldError :=
  checkMinLen "title" t.title 1 ++ checkMaxLen "title" t.title 200

/-- Modelled from the spec: constructing a `Task` from a `TaskCreate`
fills the declared defaults for the absent fields (`completed = false`,
`created_at = now`, `id` assigned by the store later). -/
def mkTask (now : DateTime) (c : TaskCreate) : Task :=
  { id := none
    title := c.title
    completed := c.completed.getD false
    created_at := now }

/-! ## Group 2: persistent entities (models.py lines 46-249)

Each structure mirrors the fields of the corresponding `table=True`
model; `Optional[...]` fields become `Option`, `datetime` becomes
`DateTime`, `Dict[str, Any]` becomes `JsonDict`.  `Relationship`
declarations are object-level views of the foreign keys already present
as `*_id` fields and add no stored column, so they have no field here. -/

structure User where
  id : Option Int
  email : String
  username : String
  full_name : String
  password_hash : String
  tier : UserTier
  is_active : Bool
  created_at : DateTime
  last_login : Option DateTime
  monthly_projects_created : Int
  monthly_audio_minutes : Decimal
  monthly_reset_date : DateTime
  default_voice_type : VoiceType
  preferences : JsonDict
deriving DecidableEq, Repr

structure TopicSuggestion where
  id : Option Int
  title : String
  description : String
  category : String
  tags : List String
  popularity_score : Decimal
  ai_generated : Bool
  created_at : DateTime
deriving DecidableEq, Repr

structure Project where
  id : Option Int
  title : String
  description : String
  status : ProjectStatus
  category : String
  tags : List String
  user_id : Int
  topic_suggestion_id : Option Int
  created_at : DateTime
  updated_at : DateTime
  published_at : Option DateTime
  target_duration_minutes : Option Int
  voice_type : VoiceType
  custom_voice_settings : JsonDict
deriving DecidableEq, Repr

structure Script where
  id : Option Int
  title : String
  content : String
  status : ScriptStatus
  version : Int
  is_current : Bool
  ai_generated : Bool
  ai_prompt : Option String
  ai_model_used : Option String
  estimated_duration_minutes : Option Decimal
  word_count : Int
  sections : List JsonDict
  project_id : Int
  created_at : DateTime
  updated_at : DateTime
deriving DecidableEq, Repr

structure AudioFile where
  id : Option Int
  filename : String
  file_path : String
  file_size_bytes : Int
  duration_seconds : Option Decimal
  status : AudioStatus
  format : String
  bitrate : Option Int
  sample_rate : Option Int
  channels : Int
  voice_type : VoiceType
  voice_speed : Decimal
  voice_pitch : Decimal
  voice_settings : JsonDict
  is_enhanced : Bool
  enhancement_settings : JsonDict
  original_file_id : Option Int
  processing_started_at : Option DateTime
  processing_completed_at : Option DateTime
  error_message : Option String
  project_id : Int
  script_id : Option Int
  created_at : DateTime
  updated_at : DateTime
deriving DecidableEq, Repr

structure Subscription where
  id : Option Int
  tier : UserTier
  is_active : Bool
  price_monthly : Decimal
  currency : String
  payment_provider : Option String
  payment_provider_subscription_id : Option String
  started_at : DateTime
  expires_at : Option DateTime
  cancelled_at : Option DateTime
  monthly_project_limit : Int
  monthly_audio_minutes_limit : Decimal
  user_id : Int
  created_at : DateTime
  updated_at : DateTime
deriving DecidableEq, Repr

structure UsageLog where
  id : Option Int
  user_id : Int
  action : String
  resource_type : String
  resource_id : Option Int
  audio_minutes_used : Option Decimal
  credits_used : Option Int
  log_metadata : JsonDict
  created_at : DateTime
deriving DecidableEq, Repr

/-! ## Transfer shapes (models.py lines 253-330) -/

structure UserCreate where
  email : String
  username : String
  full_name : String
  password : String
deriving DecidableEq, Repr

structure UserUpdate where
  full_name : Option String
  default_voice_type : Option VoiceType
  preferences : Option JsonDict
deriving DecidableEq, Repr

structure ProjectCreate where
  title : String
  description : String
  category : String
  tags : List String
  topic_suggestion_id : Option Int
  target_duration_minutes : Option Int
  voice_type : VoiceType
deriving DecidableEq, Repr

structure ProjectUpdate where
  title : Option String
  description : Option String
  status : Option ProjectStatus
  category : Option String
  tags : Option (List String)
  target_duration_minutes : Option Int
  voice_type : Option VoiceType
deriving DecidableEq, Repr

structure ScriptCreate where
  title : String
  content : String
  project_id : Int
  ai_prompt : Option String
deriving DecidableEq, Repr

structure ScriptUpdate where
  title : Option String
  content : Option String
  status : Option ScriptStatus
deriving DecidableEq, Repr

structure AudioFileCreate where
  filename : String
  project_id : Int
  script_id : Option Int
  voice_type : VoiceType
  voice_speed : Decimal
  voice_pitch : Decimal
deriving DecidableEq, Repr

structure AudioFileUpdate where
  status : Option AudioStatus
  duration_seconds : Option Decimal
  file_size_bytes : Option Int
  is_enhanced : Option Bool
  error_message : Option String
deriving DecidableEq, Repr

structure TopicSuggestionCreate where
  title : String
  description : String
  category : String
  tags : List String
  ai_generated : Bool
deriving DecidableEq, Repr

structure SubscriptionCreate where
  user_id : Int
  tier : UserTier
  price_monthly : Decimal
  monthly_project_limit : Int
  monthly_audio_minutes_limit : Decimal
  expires_at : Option DateTime
deriving DecidableEq, Repr

/-! ## Validate-on-construct

The catalog's only implicit operation besides default-fill: collect, per
field, the declared constraints a value violates (string min/max length,
regex match; enum membership is by construction of the enum types).
The checks below list exactly the constraints declared in models.py; a
value is accepted when the error list is empty. -/

def validateUser (u : User) : List FieldError :=
  checkMaxLen "email" u.email 255 ++ checkEmailRegex "email" u.email ++
    checkMaxLen "username" u.username 50 ++
    checkMaxLen "full_name" u.full_name 100 ++
    checkMaxLen "password_hash" u.password_hash 255

def validateUserCreate (c : UserCreate) : List FieldError :=
  checkMaxLen "email" c.email 255 ++ checkEmailRegex "email" c.email ++
    checkMaxLen "username" c.username 50 ++
    checkMaxLen "full_name" c.full_name 100 ++
    checkMinLen "password" c.password 8 ++ checkMaxLen "password" c.password 100

def validateTopicSuggestion (t : TopicSuggestion) : List FieldError :=
  checkMaxLen "title" t.title 200 ++ checkMaxLen "description" t.description 1000 ++
    checkMaxLen "category" t.category 100

def validateProject (p : Project) : List FieldError :=
  checkMaxLen "title" p.title 200 ++ checkMaxLen "description" p.description 2000 ++
    checkMaxLen "category" p.category 100

def validateProjectUpdate (u : ProjectUpdate) : List FieldError :=
  checkOptMaxLen "title" u.title 200 ++ checkOptMaxLen "description" u.description 2000 ++
    checkOptMaxLen "category" u.category 100

def validateScript (s : Script) : List FieldError :=
  checkMaxLen "title" s.title 200 ++ checkMaxLen "content" s.content 50000 ++
    checkOptMaxLen "ai_prompt" s.ai_prompt 2000 ++
    checkOptMaxLen "ai_model_used" s.ai_model_used 100

def validateAudioFile (a : AudioFile) : List FieldError :=
  checkMaxLen "filename" a.filename 255 ++ checkMaxLen "file_path" a.file_path 500 ++
    checkMaxLen "format" a.format 10 ++
    checkOptMaxLen "error_message" a.error_message 1000

def validateSubscription (s : Subscription) : List FieldError :=
  checkMaxLen "currency" s.currency 3 ++
    checkOptMaxLen "payment_provider" s.payment_provider 50 ++
    checkOptMaxLen "payment_provider_subscription_id" s.payment_provider_subscription_id 255

/-! ## Default-fill constructors

Constructing an entity with the defaulted fields absent fills the
defaults declared by `Field(default=...)` / `Field(default_factory=...)`
in models.py; `default_factory=datetime.utcnow` is the construction
instant `now`, and the primary key is unassigned (`none`) until the
store allocates it. -/

/-- Construct a `User` from a `UserCreate` plus the password hash, all
defaulted fields absent (models.py lines 49-66). -/
def mkUser (now : DateTime) (c : UserCreate) (hash : String) : User :=
  { id := none
    email := c.email
    username := c.username
    full_name := c.full_name
    password_hash := hash
    tier := UserTier.free
    is_active := true
    created_at := now
    last_login := none
    monthly_projects_created := 0
    monthly_audio_minutes := ⟨0, 0⟩
    monthly_reset_date := now
    default_voice_type := VoiceType.male_professional
    preferences := [] }

/-- Construct a `Project` from a `ProjectCreate` for a given owner, all
defaulted fields absent (models.py lines 92-111). -/
def mkProject (now : DateTime) (uid : Int) (c : ProjectCreate) : Project :=
  { id := none
    title := c.title
    description := c.description
    status := ProjectStatus.draft
    category := c.category
    tags := c.tags
    user_id := uid
    topic_suggestion_id := c.topic_suggestion_id
    created_at := now
    updated_at := now
    published_at := none
    target_duration_minutes := c.target_duration_minutes
    voice_type := c.voice_type
    custom_voice_settings := [] }

/-- Construct a `Script` from a `ScriptCreate`, all defaulted fields
absent (models.py lines 123-145). -/
def mkScript (now : DateTime) (c : ScriptCreate) : Script :=
  { id := none
    title := c.title
    content := c.content
    status := ScriptStatus.draft
    version := 1
    is_current := true
    ai_generated := false
    ai_prompt := c.ai_prompt
    ai_model_used := none
    estimated_duration_minutes := none
    word_count := 0
    sections := []
    project_id := c.project_id
    created_at := now
    updated_at := now }

/-! ## Partial updates

Modelled from the spec: the patch-apply operation itself lives in the
absent service layer; the spec fixes its semantics — every field present
in the update replaces the stored field, every omitted (`none`) field
leaves the stored field unchanged. -/

def applyTaskUpdate (t : Task) (u : TaskUpdate) : Task :=
  { t with
    title := u.title.getD t.title
    completed := u.completed.getD t.completed }

def applyUserUpdate (s : User) (u : UserUpdate) : User :=
  { s with
    full_name := u.full_name.getD s.full_name
    default_voice_type := u.default_voice_type.getD s.default_voice_type
    preferences := u.preferences.getD s.preferences }

def applyProjectUpdate (p : Project) (u : ProjectUpdate) : Project :=
  { p with
    title := u.title.getD p.title
    description := u.description.getD p.description
    status := u.status.getD p.status
    category := u.category.getD p.category
    tags := u.tags.getD p.tags
    target_duration_minutes :=
      match u.target_duration_minutes with
      | none => p.target_duration_minutes
      | some v => some v
    voice_type := u.voice_type.getD p.voice_type }

def applyScriptUpdate (s : Script) (u : ScriptUpdate) : Script :=
  { s with
    title := u.title.getD s.title
    content := u.content.getD s.content
    status := u.status.getD s.status }

def applyAudioFileUpdate (a : AudioFile) (u : AudioFileUpdate) : AudioFile :=
  { a with
    status := u.status.getD a.status
    duration_seconds :=
      match u.duration_seconds with
      | none => a.duration_seconds
      | some v => some v
    file_size_bytes := u.file_size_bytes.getD a.file_size_bytes
    is_enhanced := u.is_enhanced.getD a.is_enhanced
    error_message :=
      match u.error_message with
      | none => a.error_message
      | some v => some v }

/-- The all-omitted `TaskUpdate`. -/
def emptyTaskUpdate : TaskUpdate := ⟨none, none⟩

/-- The all-omitted `UserUpdate`. -/
def emptyUserUpdate : UserUpdate := ⟨none, none, none⟩

/-- The all-omitted `ProjectUpdate`. -/
def emptyProjectUpdate : ProjectUpdate := ⟨none, none, none, none, none, none, none⟩

/-- The all-omitted `ScriptUpdate`. -/
def emptyScriptUpdate : ScriptUpdate := ⟨none, none, none⟩

/-- The all-omitted `AudioFileUpdate`. -/
def emptyAudioFileUpdate : AudioFileUpdate := ⟨none, none, none, none, none⟩

/-- The `ProjectUpdate` that sets only `status`. -/
def statusOnlyUpdate (st : ProjectStatus) : ProjectUpdate :=
  ⟨none, none, some st, none, none, none, none⟩

/-! ## The persistence boundary for `User`

Modelled from the spec: the data-access layer is an external
collaborator, but the spec fixes the persistence-boundary rule — a
`User` whose `email` or `username` duplicates an existing record is
rejected; otherwise the record is stored.  The users table is the list
of stored records. -/

def insertUser (db : List User) (u : User) : Except String (List User) :=
  if db.any fun v => v.email == u.email then Except.error "duplicate email"
  else if db.any fun v => v.username == u.username then Except.error "duplicate username"
  else Except.ok (u :: db)

/-- Database states reachable from the empty users table by successful
inserts. -/
inductive Reachable : List User → Prop where
  | empty : Reachable []
  | insert (db db2 : List User) (u : User) :
      Reachable db → insertUser db u = Except.ok db2 → Reachable db2

/-- No two stored users share an email, and no two share a username. -/
def uniqueUsers (db : List User) : Prop :=
  db.Pairwise fun a b => a.email ≠ b.email ∧ a.username ≠ b.username

/-! ## Serialization to the transport representation

Modelled from the spec: the wire encoding lives in the absent API
layer, but the spec fixes its contract — the transport representation
carries every field value exactly, and decimal-typed fields travel as
exact decimal digit strings (here: sign, base-10 digit list of the
mantissa magnitude, and decimal scale), never as floating point. -/

structure WireDecimal where
  neg : Bool
  digits : List Nat
  scale : Nat
deriving DecidableEq, Repr

def serializeDecimal (d : Decimal) : WireDecimal :=
  { neg := decide (d.mant < 0)
    digits := Nat.digits 10 d.mant.natAbs
    scale := d.scale }

def deserializeDecimal (w : WireDecimal) : Decimal :=
  { mant :=
      if w.neg then -(((Nat.ofDigits 10 w.digits : ℕ) : Int))
      else ((Nat.ofDigits 10 w.digits : ℕ) : Int)
    scale := w.scale }

theorem deserializeDecimal_serializeDecimal (d : Decimal) :
    deserializeDecimal (serializeDecimal d) = d := by
  cases d with
  | mk m s =>
    simp only [serializeDecimal, deserializeDecimal, Nat.ofDigits_digits,
      Decimal.mk.injEq, and_true]
    by_cases h : m < 0
    · rw [if_pos (decide_eq_true h)]
      omega
    · rw [if_neg (by simpa using h)]
      omega

theorem optDecimal_roundtrip (o : Option Decimal) :
    Option.map deserializeDecimal (Option.map serializeDecimal o) = o := by
  cases o <;> simp [deserializeDecimal_serializeDecimal]

theorem optDecimal_roundtrip_comp (o : Option Decimal) :
    Option.map (deserializeDecimal ∘ serializeDecimal) o = o := by
  cases o <;> simp [deserializeDecimal_serializeDecimal]

structure UserWire where
  id : Option Int
  email : String
  username : String
  full_name : String
  password_hash : String
  tier : UserTier
  is_active : Bool
  created_at : DateTime
  last_login : Option DateTime
  monthly_projects_created : Int
  monthly_audio_minutes : WireDecimal
  monthly_reset_date : DateTime
  default_voice_type : VoiceType
  preferences : JsonDict
deriving DecidableEq, Repr

def serializeUser (u : User) : UserWire :=
  { id := u.id, email := u.email, username := u.username
    full_name := u.full_name, password_hash := u.password_hash
    tier := u.tier, is_active := u.is_active, created_at := u.created_at
    last_login := u.last_login
    monthly_projects_created := u.monthly_projects_created
    monthly_audio_minutes := serializeDecimal u.monthly_audio_minutes
    monthly_reset_date := u.monthly_reset_date
    default_voice_type := u.default_voice_type
    preferences := u.preferences }

def deserializeUser (w : UserWire) : User :=
  { id := w.id, email := w.email, username := w.username
    full_name := w.full_name, password_hash := w.password_hash
    tier := w.tier, is_active := w.is_active, created_at := w.created_at
    last_login := w.last_login
    monthly_projects_created := w.monthly_projects_created
    monthly_audio_minutes := deserializeDecimal w.monthly_audio_minutes
    monthly_reset_date := w.monthly_reset_date
    default_voice_type := w.default_voice_type
    preferences := w.preferences }

structure TopicSuggestionWire where
  id : Option Int
  title : String
  description : String
  category : String
  tags : List String
  popularity_score : WireDecimal
  ai_generated : Bool
  created_at : DateTime
deriving DecidableEq, Repr

def serializeTopicSuggestion (t : TopicSuggestion) : TopicSuggestionWire :=
  { id := t.id, title := t.title, description := t.description
    category := t.category, tags := t.tags
    popularity_score := serializeDecimal t.popularity_score
    ai_generated := t.ai_generated, created_at := t.created_at }

def deserializeTopicSuggestion (w : TopicSuggestionWire) : TopicSuggestion :=
  { id := w.id, title := w.title, description := w.description
    category := w.category, tags := w.tags
    popularity_score := deserializeDecimal w.popularity_score
    ai_generated := w.ai_generated, created_at := w.created_at }

structure ProjectWire where
  id : Option Int
  title : String
  description : String
  status : ProjectStatus
  category : String
  tags : List String
  user_id : Int
  topic_suggestion_id : Option Int
  created_at : DateTime
  updated_at : DateTime
  published_at : Option DateTime
  target_duration_minutes : Option Int
  voice_type : VoiceType
  custom_voice_settings : JsonDict
deriving DecidableEq, Repr

def serializeProject (p : Project) : ProjectWire :=
  { id := p.id, title := p.title, description := p.description
    status := p.status, category := p.category, tags := p.tags
    user_id := p.user_id, topic_suggestion_id := p.topic_suggestion_id
    created_at := p.created_at, updated_at := p.updated_at
    published_at := p.published_at
    target_duration_minutes := p.target_duration_minutes
    voice_type := p.voice_type
    custom_voice_settings := p.custom_voice_settings }

def deserializeProject (w : ProjectWire) : Project :=
  { id := w.id, title := w.title, description := w.description
    status := w.status, category := w.category, tags := w.tags
    user_id := w.user_id, topic_suggestion_id := w.topic_suggestion_id
    created_at := w.created_at, updated_at := w.updated_at
    published_at := w.published_at
    target_duration_minutes := w.target_duration_minutes
    voice_type := w.voice_type
    custom_voice_settings := w.custom_voice_settings }

structure ScriptWire where
  id : Option Int
  title : String
  content : String
  status : ScriptStatus
  version : Int
  is_current : Bool
  ai_generated : Bool
  ai_prompt : Option String
  ai_model_used : Option String
  estimated_duration_minutes : Option WireDecimal
  word_count : Int
  sections : List JsonDict
  project_id : Int
  created_at : DateTime
  updated_at : DateTime
deriving DecidableEq, Repr

def serializeScript (s : Script) : ScriptWire :=
  { id := s.id, title := s.title, content := s.content, status := s.status
    version := s.version, is_current := s.is_current
    ai_generated := s.ai_generated, ai_prompt := s.ai_prompt
    ai_model_used := s.ai_model_used
    estimated_duration_minutes := s.estimated_duration_minutes.map serializeDecimal
    word_count := s.word_count, sections := s.sections
    project_id := s.project_id
    created_at := s.created_at, updated_at := s.updated_at }

def deserializeScript (w : ScriptWire) : Script :=
  { id := w.id, title := w.title, content := w.content, status := w.status
    version := w.version, is_current := w.is_current
    ai_generated := w.ai_generated, ai_prompt := w.ai_prompt
    ai_model_used := w.ai_model_used
    estimated_duration_minutes := w.estimated_duration_minutes.map deserializeDecimal
    word_count := w.word_count, sections := w.sections
    project_id := w.project_id
    created_at := w.created_at, updated_at := w.updated_at }

structure AudioFileWire where
  id : Option Int
  filename : String
  file_path : String
  file_size_bytes : Int
  duration_seconds : Option WireDecimal
  status : AudioStatus
  format : String
  bitrate : Option Int
  sample_rate : Option Int
  channels : Int
  voice_type : VoiceType
  voice_speed : WireDecimal
  voice_pitch : WireDecimal
  voice_settings : JsonDict
  is_enhanced : Bool
  enhancement_settings : JsonDict
  original_file_id : Option Int
  processing_started_at : Option DateTime
  processing_completed_at : Option DateTime
  error_message : Option String
  project_id : Int
  script_id : Option Int
  created_at : DateTime
  updated_at : DateTime
deriving DecidableEq, Repr

def serializeAudioFile (a : AudioFile) : AudioFileWire :=
  { id := a.id, filename := a.filename, file_path := a.file_path
    file_size_bytes := a.file_size_bytes
    duration_seconds := a.duration_seconds.map serializeDecimal
    status := a.status, format := a.format, bitrate := a.bitrate
    sample_rate := a.sample_rate, channels := a.channels
    voice_type := a.voice_type
    voice_speed := serializeDecimal a.voice_speed
    voice_pitch := serializeDecimal a.voice_pitch
    voice_settings := a.voice_settings, is_enhanced := a.is_enhanced
    enhancement_settings := a.enhancement_settings
    original_file_id := a.original_file_id
    processing_started_at := a.processing_started_at
    processing_completed_at := a.processing_completed_at
    error_message := a.error_message, project_id := a.project_id
    script_id := a.script_id
    created_at := a.created_at, updated_at := a.updated_at }

def deserializeAudioFile (w : AudioFileWire) : AudioFile :=
  { id := w.id, filename := w.filename, file_path := w.file_path
    file_size_bytes := w.file_size_bytes
    duration_seconds := w.duration_seconds.map deserializeDecimal
    status := w.status, format := w.format, bitrate := w.bitrate
    sample_rate := w.sample_rate, channels := w.channels
    voice_type := w.voice_type
    voice_speed := deserializeDecimal w.voice_speed
    voice_pitch := deserializeDecimal w.voice_pitch
    voice_settings := w.voice_settings, is_enhanced := w.is_enhanced
    enhancement_settings := w.enhancement_settings
    original_file_id := w.original_file_id
    processing_started_at := w.processing_started_at
    processing_completed_at := w.processing_completed_at
    error_message := w.error_message, project_id := w.project_id
    script_id := w.script_id
    created_at := w.created_at, updated_at := w.updated_at }

structure SubscriptionWire where
  id : Option Int
  tier : UserTier
  is_active : Bool
  price_monthly : WireDecimal
  currency : String
  payment_provider : Option String
  payment_provider_subscription_id : Option String
  started_at : DateTime
  expires_at : Option DateTime
  cancelled_at : Option DateTime
  monthly_project_limit : Int
  monthly_audio_minutes_limit : WireDecimal
  user_id : Int
  created_at : DateTime
  updated_at : DateTime
deriving DecidableEq, Repr

def serializeSubscription (s : Subscription) : SubscriptionWire :=
  { id := s.id, tier := s.tier, is_active := s.is_active
    price_monthly := serializeDecimal s.price_monthly
    currency := s.currency, payment_provider := s.payment_provider
    payment_provider_subscription_id := s.payment_provider_subscription_id
    started_at := s.started_at, expires_at := s.expires_at
    cancelled_at := s.cancelled_at
    monthly_project_limit := s.monthly_project_limit
    monthly_audio_minutes_limit := serializeDecimal s.monthly_audio_minutes_limit
    user_id := s.user_id
    created_at := s.created_at, updated_at := s.updated_at }

def deserializeSubscription (w : SubscriptionWire) : Subscription :=
  { id := w.id, tier := w.tier, is_active := w.is_active
    price_monthly := deserializeDecimal w.price_monthly
    currency := w.currency, payment_provider := w.payment_provider
    payment_provider_subscription_id := w.payment_provider_subscription_id
    started_at := w.started_at, expires_at := w.expires_at
    cancelled_at := w.cancelled_at
    monthly_project_limit := w.monthly_project_limit
    monthly_audio_minutes_limit := deserializeDecimal w.monthly_audio_minutes_limit
    user_id := w.user_id
    created_at := w.created_at, updated_at := w.updated_at }

structure UsageLogWire where
  id : Option Int
  user_id : Int
  action : String
  resource_type : String
  resource_id : Option Int
  audio_minutes_used : Option WireDecimal
  credits_used : Option Int
  log_metadata : JsonDict
  created_at : DateTime
deriving DecidableEq, Repr

def serializeUsageLog (l : UsageLog) : UsageLogWire :=
  { id := l.id, user_id := l.user_id, action := l.action
    resource_type := l.resource_type, resource_id := l.resource_id
    audio_minutes_used := l.audio_minutes_used.map serializeDecimal
    credits_used := l.credits_used, log_metadata := l.log_metadata
    created_at := l.created_at }

def deserializeUsageLog (w : UsageLogWire) : UsageLog :=
  { id := w.id, user_id := w.user_id, action := w.action
    resource_type := w.resource_type, resource_id := w.resource_id
    audio_minutes_used := w.audio_minutes_used.map deserializeDecimal
    credits_used := w.credits_used, log_metadata := w.log_metadata
    created_at := w.created_at }

structure TaskWire where
  id : Option Int
  title : String
  completed : Bool
  created_at : DateTime
deriving DecidableEq, Repr

def serializeTask (t : Task) : TaskWire :=
  { id := t.id, title := t.title, completed := t.completed
    created_at := t.created_at }

def deserializeTask (w : TaskWire) : Task :=
  { id := w.id, title := w.title, completed := w.completed
    created_at := w.created_at }

/-! ## Sample values (for concrete instantiations) -/

def task0 : Task := ⟨some 1, "write intro", false, 0⟩

def userCreate0 : UserCreate := ⟨"alice@example.com", "alice", "Alice A", "hunter2pass"⟩

def user0 : User := mkUser 0 userCreate0 "hash0"

/-- A second user sharing `user0`'s email (for duplicate-insert tests). -/
def user1 : User := mkUser 0 ⟨"alice@example.com", "alice2", "Alice B", "password1"⟩ "hash1"

def projectCreate0 : ProjectCreate :=
  ⟨"Ep 1", "", "tech", ["tech", "ai"], none, none, VoiceType.male_professional⟩

def project0 : Project := mkProject 0 1 projectCreate0

def scriptCreate0 : ScriptCreate := ⟨"Ep 1 script", "hello world", 1, none⟩

def script0 : Script := mkScript 0 scriptCreate0

def audioFile0 : AudioFile :=
  { id := some 1
    filename := "ep1.mp3"
    file_path := "/files/ep1.mp3"
    file_size_bytes := 0
    duration_seconds := none
    status := AudioStatus.pending
    format := "mp3"
    bitrate := none
    sample_rate := none
    channels := 1
    voice_type := VoiceType.male_professional
    voice_speed := ⟨10, 1⟩
    voice_pitch := ⟨10, 1⟩
    voice_settings := []
    is_enhanced := false
    enhancement_settings := []
    original_file_id := none
    processing_started_at := none
    processing_completed_at := none
    error_message := none
    project_id := 1
    script_id := none
    created_at := 0
    updated_at := 0 }

/-- `audioFile0` with its `original_file_id` pointed at its own id. -/
def selfLoopFile : AudioFile := { audioFile0 with original_file_id := some 1 }

/-! ## Helper lemmas about the field checks -/

theorem mem_checkMaxLen {e : FieldError} {f v : String} {n : Nat}
    (h : e ∈ checkMaxLen f v n) : e = (f, "max_length") := by
  unfold checkMaxLen at h
  split at h <;> simp_all

theorem mem_checkMinLen {e : FieldError} {f v : String} {n : Nat}
    (h : e ∈ checkMinLen f v n) : e = (f, "min_length") := by
  unfold checkMinLen at h
  split at h <;> simp_all

theorem mem_checkEmailRegex {e : FieldError} {f v : String}
    (h : e ∈ checkEmailRegex f v) : e = (f, "regex") := by
  unfold checkEmailRegex at h
  split at h <;> simp_all

theorem mem_checkOptMaxLen {e : FieldError} {f : String} {v : Option String} {n : Nat}
    (h : e ∈ checkOptMaxLen f v n) : e = (f, "max_length") := by
  cases v with
  | none => simp [checkOptMaxLen] at h
  | some s => exact mem_checkMaxLen h

theorem checkMaxLen_eq_nil {f v : String} {n : Nat} (h : v.length ≤ n) :
    checkMaxLen f v n = [] := by
  simp [checkMaxLen, h]

theorem checkMinLen_eq_nil {f v : String} {n : Nat} (h : n ≤ v.length) :
    checkMinLen f v n = [] := by
  simp [checkMinLen, h]

theorem checkEmailRegex_eq_nil {f v : String} (h : emailMatch v = true) :
    checkEmailRegex f v = [] := by
  simp [checkEmailRegex, h]

/-! ## Helper lemmas about the persistence boundary -/

theorem insertUser_ok_unique {db db2 : List User} {u : User}
    (hdb : uniqueUsers db) (h : insertUser db u = Except.ok db2) :
    uniqueUsers db2 := by
  unfold insertUser at h
  cases he : db.any fun v => v.email == u.email with
  | true => rw [he] at h; simp at h
  | false =>
    rw [he] at h
    cases hn : db.any fun v => v.username == u.username with
    | true => rw [hn] at h; simp at h
    | false =>
      rw [hn] at h
      simp only [Bool.false_eq_true, if_false, Except.ok.injEq] at h
      subst h
      simp only [List.any_eq_false, beq_iff_eq] at he hn
      simp only [uniqueUsers, List.pairwise_cons] at hdb ⊢
      exact ⟨fun b hb => ⟨fun hc => he b hb hc.symm, fun hc => hn b hb hc.symm⟩, hdb⟩

theorem insertUser_dup_rejected {db : List User} {u v : User}
    (hv : v ∈ db) (hdup : v.email = u.email ∨ v.username = u.username) :
    ∀ db2, insertUser db u ≠ Except.ok db2 := by
  intro db2 h
  unfold insertUser at h
  rcases hdup with hd | hd
  · have ha : (db.any fun w => w.email == u.email) = true :=
      List.any_eq_true.mpr ⟨v, hv, by simp [hd]⟩
    rw [ha] at h
    simp at h
  · cases he : db.any fun w => w.email == u.email with
    | true => rw [he] at h; simp at h
    | false =>
      have ha : (db.any fun w => w.username == u.username) = true :=
        List.any_eq_true.mpr ⟨v, hv, by simp [hd]⟩
      rw [he, ha] at h
      simp at h

/-! ## Claims -/

/-- Claim C1: for every `Task` construction, a title of length 0 is
rejected, a title of length 1 to 200 characters is accepted, and
`completed` defaults to `false` when the field is absent. -/
theorem task_title_bounds_and_completed_default (now : DateTime) (c : TaskCreate) :
    (c.title.length = 0 → validateTask (mkTask now c) ≠ []) ∧
    (1 ≤ c.title.length → c.title.length ≤ 200 → validateTask (mkTask now c) = []) ∧
    (c.completed = none → (mkTask now c).completed = false) := by
  refine ⟨?_, ?_, ?_⟩
  · intro h
    simp [validateTask, mkTask, checkMinLen, checkMaxLen, h]
  · intro h1 h2
    simp [validateTask, mkTask, checkMinLen_eq_nil h1, checkMaxLen_eq_nil h2]
  · intro h
    simp [mkTask, h]

/-- Witness for C1: the empty title is rejected, `"write intro"` (11
characters) is accepted, and the completed flag defaults to `false`. -/
theorem task_title_bounds_and_completed_default_witness :
    validateTask (mkTask 0 ⟨"", none⟩) ≠ [] ∧
    validateTask (mkTask 0 ⟨"write intro", none⟩) = [] ∧
    (mkTask 0 ⟨"write intro", none⟩).completed = false := by
  obtain ⟨h1, _, _⟩ := task_title_bounds_and_completed_default 0 ⟨"", none⟩
  obtain ⟨_, g2, g3⟩ := task_title_bounds_and_completed_default 0 ⟨"write intro", none⟩
  exact ⟨h1 rfl, g2 (by decide) (by decide), g3 rfl⟩

/-- Claim C2: for every stored entity and every corresponding Update
shape, every field omitted from the update leaves the corresponding
stored field unchanged after the patch is applied; in particular an
all-omitted update is a no-op. -/
theorem update_omitted_fields_frame
    (t : Task) (ut : TaskUpdate) (s : User) (us : UserUpdate)
    (p : Project) (up : ProjectUpdate) (sc : Script) (usc : ScriptUpdate)
    (a : AudioFile) (ua : AudioFileUpdate) :
    (applyTaskUpdate t emptyTaskUpdate = t) ∧
    (applyUserUpdate s emptyUserUpdate = s) ∧
    (applyProjectUpdate p emptyProjectUpdate = p) ∧
    (applyScriptUpdate sc emptyScriptUpdate = sc) ∧
    (applyAudioFileUpdate a emptyAudioFileUpdate = a) ∧
    (ut.title = none → (applyTaskUpdate t ut).title = t.title) ∧
    (ut.completed = none → (applyTaskUpdate t ut).completed = t.completed) ∧
    (us.full_name = none → (applyUserUpdate s us).full_name = s.full_name) ∧
    (us.default_voice_type = none →
      (applyUserUpdate s us).default_voice_type = s.default_voice_type) ∧
    (us.preferences = none → (applyUserUpdate s us).preferences = s.preferences) ∧
    (up.title = none → (applyProjectUpdate p up).title = p.title) ∧
    (up.description = none → (applyProjectUpdate p up).description = p.description) ∧
    (up.status = none → (applyProjectUpdate p up).status = p.status) ∧
    (up.category = none → (applyProjectUpdate p up).category = p.category) ∧
    (up.tags = none → (applyProjectUpdate p up).tags = p.tags) ∧
    (up.target_duration_minutes = none →
      (applyProjectUpdate p up).target_duration_minutes = p.target_duration_minutes) ∧
    (up.voice_type = none → (applyProjectUpdate p up).voice_type = p.voice_type) ∧
    (usc.title = none → (applyScriptUpdate sc usc).title = sc.title) ∧
    (usc.content = none → (applyScriptUpdate sc usc).content = sc.content) ∧
    (usc.status = none → (applyScriptUpdate sc usc).status = sc.status) ∧
    (ua.status = none → (applyAudioFileUpdate a ua).status = a.status) ∧
    (ua.duration_seconds = none →
      (applyAudioFileUpdate a ua).duration_seconds = a.duration_seconds) ∧
    (ua.file_size_bytes = none →
      (applyAudioFileUpdate a ua).file_size_bytes = a.file_size_bytes) ∧
    (ua.is_enhanced = none → (applyAudioFileUpdate a ua).is_enhanced = a.is_enhanced) ∧
    (ua.error_message = none →
      (applyAudioFileUpdate a ua).error_message = a.error_message) := by
  refine ⟨rfl, rfl, rfl, rfl, rfl, ?_, ?_, ?_, ?_, ?_, ?_, ?_, ?_, ?_, ?_, ?_, ?_, ?_,
    ?_, ?_, ?_, ?_, ?_, ?_, ?_⟩ <;>
  · intro h
    simp [applyTaskUpdate, applyUserUpdate, applyProjectUpdate, applyScriptUpdate,
      applyAudioFileUpdate, h]

/-- Witness for C2: the all-omitted updates applied to the sample
entities are no-ops, field by field. -/
theorem update_omitted_fields_frame_witness :
    applyTaskUpdate task0 emptyTaskUpdate = task0 ∧
    applyUserUpdate user0 emptyUserUpdate = user0 ∧
    applyProjectUpdate project0 emptyProjectUpdate = project0 ∧
    applyScriptUpdate script0 emptyScriptUpdate = script0 ∧
    applyAudioFileUpdate audioFile0 emptyAudioFileUpdate = audioFile0 ∧
    (applyTaskUpdate task0 emptyTaskUpdate).title = task0.title ∧
    (applyTaskUpdate task0 emptyTaskUpdate).completed = task0.completed ∧
    (applyUserUpdate user0 emptyUserUpdate).full_name = user0.full_name ∧
    (applyUserUpdate user0 emptyUserUpdate).default_voice_type = user0.default_voice_type ∧
    (applyUserUpdate user0 emptyUserUpdate).preferences = user0.preferences ∧
    (applyProjectUpdate project0 emptyProjectUpdate).title = project0.title ∧
    (applyProjectUpdate project0 emptyProjectUpdate).description = project0.description ∧
    (applyProjectUpdate project0 emptyProjectUpdate).status = project0.status ∧
    (applyProjectUpdate project0 emptyProjectUpdate).category = project0.category ∧
    (applyProjectUpdate project0 emptyProjectUpdate).tags = project0.tags ∧
    (applyProjectUpdate project0 emptyProjectUpdate).target_duration_minutes =
      project0.target_duration_minutes ∧
    (applyProjectUpdate project0 emptyProjectUpdate).voice_type = project0.voice_type ∧
    (applyScriptUpdate script0 emptyScriptUpdate).title = script0.title ∧
    (applyScriptUpdate script0 emptyScriptUpdate).content = script0.content ∧
    (applyScriptUpdate script0 emptyScriptUpdate).status = script0.status ∧
    (applyAudioFileUpdate audioFile0 emptyAudioFileUpdate).status = audioFile0.status ∧
    (applyAudioFileUpdate audioFile0 emptyAudioFileUpdate).duration_seconds =
      audioFile0.duration_seconds ∧
    (applyAudioFileUpdate audioFile0 emptyAudioFileUpdate).file_size_bytes =
      audioFile0.file_size_bytes ∧
    (applyAudioFileUpdate audioFile0 emptyAudioFileUpdate).is_enhanced =
      audioFile0.is_enhanced ∧
    (applyAudioFileUpdate audioFile0 emptyAudioFileUpdate).error_message =
      audioFile0.error_message := by
  obtain ⟨h1, h2, h3, h4, h5, f1, f2, f3, f4, f5, f6, f7, f8, f9, f10, f11, f12, f13,
    f14, f15, f16, f17, f18, f19, f20⟩ :=
    update_omitted_fields_frame task0 emptyTaskUpdate user0 emptyUserUpdate project0
      emptyProjectUpdate script0 emptyScriptUpdate audioFile0 emptyAudioFileUpdate
  exact ⟨h1, h2, h3, h4, h5, f1 rfl, f2 rfl, f3 rfl, f4 rfl, f5 rfl, f6 rfl, f7 rfl,
    f8 rfl, f9 rfl, f10 rfl, f11 rfl, f12 rfl, f13 rfl, f14 rfl, f15 rfl, f16 rfl,
    f17 rfl, f18 rfl, f19 rfl, f20 rfl⟩

/-- Claim C3: a string not matching the declared email regex is rejected
on `User` and `UserCreate` with a validation error naming the `email`
field and the violated rule, and every string matching the pattern of at
most 255 characters raises no email-field error. -/
theorem email_regex_validation (c : UserCreate) (u : User) :
    (emailMatch c.email = false → ("email", "regex") ∈ validateUserCreate c) ∧
    (emailMatch u.email = false → ("email", "regex") ∈ validateUser u) ∧
    (emailMatch c.email = true → c.email.length ≤ 255 →
      ∀ r, ("email", r) ∉ validateUserCreate c) ∧
    (emailMatch u.email = true → u.email.length ≤ 255 →
      ∀ r, ("email", r) ∉ validateUser u) := by
  refine ⟨?_, ?_, ?_, ?_⟩
  · intro h
    simp [validateUserCreate, checkEmailRegex, h]
  · intro h
    simp [validateUser, checkEmailRegex, h]
  · intro hm hlen r hr
    simp only [validateUserCreate, checkMaxLen_eq_nil hlen, checkEmailRegex_eq_nil hm,
      List.nil_append, List.append_nil, List.mem_append, or_assoc] at hr
    rcases hr with h | h | h | h
    · exact absurd (mem_checkMaxLen h) (by simp)
    · exact absurd (mem_checkMaxLen h) (by simp)
    · exact absurd (mem_checkMinLen h) (by simp)
    · exact absurd (mem_checkMaxLen h) (by simp)
  · intro hm hlen r hr
    simp only [validateUser, checkMaxLen_eq_nil hlen, checkEmailRegex_eq_nil hm,
      List.nil_append, List.append_nil, List.mem_append, or_assoc] at hr
    rcases hr with h | h | h
    · exact absurd (mem_checkMaxLen h) (by simp)
    · exact absurd (mem_checkMaxLen h) (by simp)
    · exact absurd (mem_checkMaxLen h) (by simp)

/-- Witness for C3: `"not-an-email"` fails the regex and produces the
email regex error; `"alice@example.com"` matches and produces no
email-field error. -/
theorem email_regex_validation_witness :
    emailMatch "not-an-email" = false ∧
    ("email", "regex") ∈ validateUserCreate ⟨"not-an-email", "bob", "Bob B", "longpassword"⟩ ∧
    emailMatch "alice@example.com" = true ∧
    ("email", "regex") ∉ validateUserCreate userCreate0 := by
  refine ⟨by decide, ?_, by decide, ?_⟩
  · exact (email_regex_validation ⟨"not-an-email", "bob", "Bob B", "longpassword"⟩
      user0).1 (by decide)
  · exact (email_regex_validation userCreate0 user0).2.2.1 (by decide) (by decide) "regex"

/-- Claim C4 (amended): the schema does not reject the degenerate
self-loop — validation is independent of `original_file_id`, so an
`AudioFile` whose `original_file_id` equals its own id passes exactly
when the file otherwise passes. -/
theorem audio_self_loop_accepted (a : AudioFile) (i : Int) (ofid : Option Int) :
    validateAudioFile { a with id := some i, original_file_id := some i } =
      validateAudioFile a ∧
    validateAudioFile { a with original_file_id := ofid } = validateAudioFile a :=
  ⟨rfl, rfl⟩

/-- Counterexample for C4 as stated: `selfLoopFile` has
`original_file_id` equal to its own id, yet validation accepts it (the
error list is empty), so the self-loop is not rejected. -/
theorem audio_self_loop_counterexample :
    selfLoopFile.original_file_id = selfLoopFile.id ∧
    selfLoopFile.original_file_id = some 1 ∧
    validateAudioFile selfLoopFile = [] :=
  ⟨rfl, rfl, rfl⟩

/-- Claim C5: serializing a persistent entity to its transport
representation and deserializing back reproduces identical field
values; decimal fields are reproduced at full precision — `19.99`
round-trips to exactly `19.99`, not `19.990000001` and not `20`. -/
theorem serialization_roundtrip (u : User) (t : TopicSuggestion) (p : Project)
    (s : Script) (a : AudioFile) (sub : Subscription) (l : UsageLog) (tk : Task) :
    deserializeUser (serializeUser u) = u ∧
    deserializeTopicSuggestion (serializeTopicSuggestion t) = t ∧
    deserializeProject (serializeProject p) = p ∧
    deserializeScript (serializeScript s) = s ∧
    deserializeAudioFile (serializeAudioFile a) = a ∧
    deserializeSubscription (serializeSubscription sub) = sub ∧
    deserializeUsageLog (serializeUsageLog l) = l ∧
    deserializeTask (serializeTask tk) = tk ∧
    deserializeDecimal (serializeDecimal sub.price_monthly) = sub.price_monthly ∧
    deserializeDecimal (serializeDecimal ⟨1999, 2⟩) = (⟨1999, 2⟩ : Decimal) ∧
    Decimal.val ⟨1999, 2⟩ = 1999 / 100 ∧
    Decimal.val ⟨1999, 2⟩ ≠ 20 ∧
    Decimal.val ⟨1999, 2⟩ ≠ (19990000001 : ℚ) / 10 ^ 9 := by
  refine ⟨?_, ?_, ?_, ?_, ?_, ?_, ?_, ?_, deserializeDecimal_serializeDecimal _,
    deserializeDecimal_serializeDecimal _, ?_, ?_, ?_⟩
  · cases u
    simp [serializeUser, deserializeUser, deserializeDecimal_serializeDecimal]
  · cases t
    simp [serializeTopicSuggestion, deserializeTopicSuggestion,
      deserializeDecimal_serializeDecimal]
  · cases p
    simp [serializeProject, deserializeProject]
  · cases s
    simp [serializeScript, deserializeScript, optDecimal_roundtrip, optDecimal_roundtrip_comp]
  · cases a
    simp [serializeAudioFile, deserializeAudioFile, deserializeDecimal_serializeDecimal,
      optDecimal_roundtrip, optDecimal_roundtrip_comp]
  · cases sub
    simp [serializeSubscription, deserializeSubscription,
      deserializeDecimal_serializeDecimal]
  · cases l
    simp [serializeUsageLog, deserializeUsageLog, optDecimal_roundtrip, optDecimal_roundtrip_comp]
  · cases tk
    simp [serializeTask, deserializeTask]
  · norm_num [Decimal.val]
  · norm_num [Decimal.val]
  · norm_num [Decimal.val]

/-- Claim C6: constructing an entity with defaulted fields absent fills
the declared defaults — a `User` without `tier` gets `free`, without
`default_voice_type` gets `male_professional`, and a `Project` without
`status` gets `draft`. -/
theorem defaults_filled (now : DateTime) (c : UserCreate) (hash : String)
    (uid : Int) (pc : ProjectCreate) :
    (mkUser now c hash).tier = UserTier.free ∧
    (mkUser now c hash).default_voice_type = VoiceType.male_professional ∧
    (mkProject now uid pc).status = ProjectStatus.draft :=
  ⟨rfl, rfl, rfl⟩

/-- Claim C7: every reachable database state has pairwise-distinct user
emails and pairwise-distinct usernames, and inserting a user whose email
or username duplicates a stored record is rejected at the persistence
boundary. -/
theorem user_uniqueness_invariant (db : List User) (u : User) :
    (Reachable db → uniqueUsers db) ∧
    ((∃ v ∈ db, v.email = u.email ∨ v.username = u.username) →
      ∀ db2, insertUser db u ≠ Except.ok db2) := by
  constructor
  · intro hr
    induction hr with
    | empty => simp [uniqueUsers]
    | insert db' db2' u' _ hok ih => exact insertUser_ok_unique ih hok
  · rintro ⟨v, hv, hdup⟩
    exact insertUser_dup_rejected hv hdup

/-- Witness for C7: the one-user table reached by inserting `user0` is
duplicate-free, and inserting `user1` (same email) into it is
rejected. -/
theorem user_uniqueness_invariant_witness :
    uniqueUsers [user0] ∧ insertUser [user0] user1 ≠ Except.ok [] := by
  have hreach : Reachable [user0] :=
    Reachable.insert [] [user0] user0 Reachable.empty rfl
  refine ⟨(user_uniqueness_invariant [user0] user1).1 hreach, ?_⟩
  exact (user_uniqueness_invariant [user0] user1).2 ⟨user0, by simp, Or.inl rfl⟩ []

/-- Claim C8: for every member of `ProjectStatus` and every `Project` in
any state, an update setting only `status` to that member passes
validation and sets the status, leaving the other fields unchanged — no
transition-validation logic restricts which status may follow which. -/
theorem project_status_any_transition (p : Project) (st : ProjectStatus) :
    validateProjectUpdate (statusOnlyUpdate st) = [] ∧
    (applyProjectUpdate p (statusOnlyUpdate st)).status = st ∧
    (applyProjectUpdate p (statusOnlyUpdate st)).title = p.title ∧
    (applyProjectUpdate p (statusOnlyUpdate st)).tags = p.tags ∧
    (applyProjectUpdate p (statusOnlyUpdate st)).category = p.category :=
  ⟨rfl, rfl, rfl, rfl, rfl⟩

/-- Claim C9: a `UserCreate` password shorter than 8 or longer than 100
characters is rejected with a password-field error, any length 8 to 100
satisfies the constraint, and the persistent `User` carries only
`password_hash`, with no password-field error and no minimum-length rule
on the hash. -/
theorem password_length_validation (c : UserCreate) (u : User) :
    (c.password.length < 8 → ("password", "min_length") ∈ validateUserCreate c) ∧
    (100 < c.password.length → ("password", "max_length") ∈ validateUserCreate c) ∧
    (8 ≤ c.password.length → c.password.length ≤ 100 →
      ∀ r, ("password", r) ∉ validateUserCreate c) ∧
    (∀ r, ("password", r) ∉ validateUser u) ∧
    ("password_hash", "min_length") ∉ validateUser u := by
  refine ⟨?_, ?_, ?_, ?_, ?_⟩
  · intro h
    have h8 : ¬ (8 ≤ c.password.length) := by omega
    simp [validateUserCreate, checkMinLen, h8]
  · intro h
    have h100 : ¬ (c.password.length ≤ 100) := by omega
    simp [validateUserCreate, checkMaxLen, h100]
  · intro hmin hmax r hr
    simp only [validateUserCreate, checkMinLen_eq_nil hmin, checkMaxLen_eq_nil hmax,
      List.nil_append, List.append_nil, List.mem_append, or_assoc] at hr
    rcases hr with h | h | h | h
    · exact absurd (mem_checkMaxLen h) (by simp)
    · exact absurd (mem_checkEmailRegex h) (by simp)
    · exact absurd (mem_checkMaxLen h) (by simp)
    · exact absurd (mem_checkMaxLen h) (by simp)
  · intro r hr
    simp only [validateUser, List.mem_append, or_assoc] at hr
    rcases hr with h | h | h | h | h
    · exact absurd (mem_checkMaxLen h) (by simp)
    · exact absurd (mem_checkEmailRegex h) (by simp)
    · exact absurd (mem_checkMaxLen h) (by simp)
    · exact absurd (mem_checkMaxLen h) (by simp)
    · exact absurd (mem_checkMaxLen h) (by simp)
  · intro hr
    simp only [validateUser, List.mem_append, or_assoc] at hr
    rcases hr with h | h | h | h | h
    · exact absurd (mem_checkMaxLen h) (by simp)
    · exact absurd (mem_checkEmailRegex h) (by simp)
    · exact absurd (mem_checkMaxLen h) (by simp)
    · exact absurd (mem_checkMaxLen h) (by simp)
    · exact absurd (mem_checkMaxLen h) (by simp)

/-- Witness for C9: a 5-character password is rejected with the
min-length error, a 101-character one with the max-length error, the
11-character `"hunter2pass"` passes, and `user0` (hash `"hash0"`, 5
characters) raises no password or hash-min-length error. -/
theorem password_length_validation_witness :
    ("password", "min_length") ∈
      validateUserCreate ⟨"bob@example.com", "bob", "Bob B", "short"⟩ ∧
    ("password", "max_length") ∈
      validateUserCreate ⟨"bob@example.com", "bob", "Bob B",
        String.mk (List.replicate 101 'x')⟩ ∧
    ("password", "min_length") ∉ validateUserCreate userCreate0 ∧
    ("password", "min_length") ∉ validateUser user0 ∧
    ("password_hash", "min_length") ∉ validateUser user0 := by
  refine ⟨?_, ?_, ?_, ?_, ?_⟩
  · exact (password_length_validation
      ⟨"bob@example.com", "bob", "Bob B", "short"⟩ user0).1 (by decide)
  · exact (password_length_validation
      ⟨"bob@example.com", "bob", "Bob B", String.mk (List.replicate 101 'x')⟩
      user0).2.1 (by decide)
  · exact (password_length_validation userCreate0 user0).2.2.1 (by decide) (by decide)
      "min_length"
  · exact (password_length_validation userCreate0 user0).2.2.2.1 "min_length"
  · exact (password_length_validation userCreate0 user0).2.2.2.2

/-- Claim C10: a `Script` constructed without explicit version,
is_current, status, or ai_generated gets `version = 1`,
`is_current = true`, `status = draft`, `ai_generated = false`; two
scripts created for the same project with defaults are both flagged
current. -/
theorem script_defaults (now now2 : DateTime) (c c2 : ScriptCreate) :
    (mkScript now c).version = 1 ∧
    (mkScript now c).is_current = true ∧
    (mkScript now c).status = ScriptStatus.draft ∧
    (mkScript now c).ai_generated = false ∧
    (c2.project_id = c.project_id →
      (mkScript now c).is_current = true ∧ (mkScript now2 c2).is_current = true ∧
      (mkScript now2 c2).project_id = (mkScript now c).project_id) :=
  ⟨rfl, rfl, rfl, rfl, fun h => ⟨rfl, rfl, h⟩⟩

/-- Witness for C10: two concrete scripts created for project 1 both
come out flagged current, with the declared defaults filled. -/
theorem script_defaults_witness :
    (mkScript 0 scriptCreate0).version = 1 ∧
    (mkScript 0 scriptCreate0).is_current = true ∧
    (mkScript 1 ⟨"Ep 1 script v2", "hello again", 1, none⟩).is_current = true := by
  obtain ⟨h1, h2, _, _, h5⟩ :=
    script_defaults 0 1 scriptCreate0 ⟨"Ep 1 script v2", "hello again", 1, none⟩
  exact ⟨h1, h2, (h5 rfl).2.1⟩

end App
